import Mathlib

/-!
Shallow embedding of the JustTreats API (src/main.py, src/database.py, src/auth.py).

Conventions of the embedding:
* Python ints become `Int`; Python floats holding prices become `ℚ`
  (exact fractional arithmetic, per §4.5 "Numeric semantics" of the spec);
  timestamps become `Int`.
* SQLAlchemy tables become lists of records inside a `DB` state; the
  autoincrementing primary key of each table becomes an explicit counter
  (`nextProductId`, ...), reflecting that the ORM constructors in the source
  never pass the client id.
* `db.query(T).filter(T.id == x).first()` becomes `List.find?` on the table.
* JSON round-tripping of the items / customer / applicability blobs
  (json.dumps on write, json.loads on read) is modelled as the identity on the
  structured values, which is what the source relies on.
* `raise HTTPException(status_code, detail)` becomes `Except.error` carrying
  the status code and the detail string; each handler becomes a function from
  the current `DB` (plus the request payload and any ambient inputs such as
  the current time or the freshly drawn uuid) to `Except HTTPException` of
  (new `DB` × response body).
-/

namespace JustTreats

/-- Error raised by a handler: mirrors fastapi's HTTPException(status_code, detail). -/
structure HTTPException where
  status_code : Int
  detail : String
deriving DecidableEq

/-! ## Data model (src/database.py rows and src/main.py pydantic models) -/

/-- Row of the `products` table. `applicableAddons` is stored as a JSON string
in the source; the round-trip is modelled as the structured list itself. -/
structure Product where
  id : Int
  name : String
  description : String
  price : ℚ
  image : String
  available : Option Bool
  eventOnly : Bool
  eventId : Option Int
  applicableAddons : List Int
deriving DecidableEq

/-- Request/response model ProductModel of src/main.py. -/
structure ProductModel where
  id : Option Int := none
  name : String
  description : String
  price : ℚ
  image : String
  available : Option Bool := some true
  applicableAddons : List Int
  eventOnly : Bool
  eventId : Option Int := none
deriving DecidableEq

/-- Row of the `addons` table. -/
structure Addon where
  id : Int
  name : String
  description : String
  price : ℚ
  available : Bool
  applicableProducts : List Int
deriving DecidableEq

/-- Request/response model AddonModel of src/main.py. -/
structure AddonModel where
  id : Option Int := none
  name : String
  description : String
  price : ℚ
  available : Bool
  applicableProducts : List Int
deriving DecidableEq

/-- Row of the `events` table. -/
structure Event where
  id : Int
  name : String
  description : String
  date : Int
  endDate : Int
  location : String
  image : String
  active : Bool
  featured : Bool
deriving DecidableEq

/-- Request/response model EventModel of src/main.py. -/
structure EventModel where
  id : Option Int := none
  name : String
  description : String
  date : Int
  endDate : Int
  location : String
  image : String
  active : Bool
  featured : Bool
deriving DecidableEq

/-- OrderAddon of src/main.py. -/
structure OrderAddon where
  addonId : Int
  quantity : Int
  notes : Option String := some ""
deriving DecidableEq

/-- OrderItem of src/main.py. -/
structure OrderItem where
  productId : Int
  quantity : Int
  addons : List OrderAddon := []
deriving DecidableEq

/-- OrderCustomer of src/main.py. -/
structure OrderCustomer where
  name : String
  email : String
  phone : String
  contactMethod : String
  delivery : Bool
  deliveryAddress : Option String := none
  pickupAtEvent : Bool
deriving DecidableEq

/-- Row of the `orders` table. The items/customer JSON blobs are modelled as
the structured values they serialize. -/
structure StoredOrder where
  id : Int
  date : Int
  unique_order_id : String
  items : List OrderItem
  customer : OrderCustomer
  total : ℚ
deriving DecidableEq

/-- Request/response model OrderModel of src/main.py. -/
structure OrderModel where
  id : Option Int := none
  date : Option Int := none
  items : List OrderItem
  customer : OrderCustomer
  total : Option ℚ := none
  unique_order_id : Option String := none
deriving DecidableEq

/-- The persistent state: one list per table, plus the autoincrement counters
of the primary keys. -/
structure DB where
  products : List Product := []
  addons : List Addon := []
  events : List Event := []
  orders : List StoredOrder := []
  nextProductId : Int := 1
  nextAddonId : Int := 1
  nextEventId : Int := 1
  nextOrderId : Int := 1
deriving DecidableEq

/-- db.query(Product).filter(Product.id == pid).first() -/
def lookupProduct (db : DB) (pid : Int) : Option Product :=
  db.products.find? (fun p => p.id == pid)

/-- db.query(Addon).filter(Addon.id == aid).first() -/
def lookupAddon (db : DB) (aid : Int) : Option Addon :=
  db.addons.find? (fun a => a.id == aid)

/-- db.query(Event).filter(Event.id == eid).first() -/
def lookupEvent (db : DB) (eid : Int) : Option Event :=
  db.events.find? (fun e => e.id == eid)

/-- Serialization of a stored product row back into the response model
(main.py returns the row dict with applicableAddons re-parsed). -/
def productResponse (p : Product) : ProductModel :=
  { id := some p.id, name := p.name, description := p.description,
    price := p.price, image := p.image, available := p.available,
    applicableAddons := p.applicableAddons, eventOnly := p.eventOnly,
    eventId := p.eventId }

/-- Serialization of a stored addon row back into the response model. -/
def addonResponse (a : Addon) : AddonModel :=
  { id := some a.id, name := a.name, description := a.description,
    price := a.price, available := a.available,
    applicableProducts := a.applicableProducts }

/-- Serialization of a stored event row back into the response model. -/
def eventResponse (e : Event) : EventModel :=
  { id := some e.id, name := e.name, description := e.description,
    date := e.date, endDate := e.endDate, location := e.location,
    image := e.image, active := e.active, featured := e.featured }

/-- Serialization of a stored order row back into the response model
(get_order_by_unique_id / get_orders deserialize the blobs like this). -/
def orderResponse (o : StoredOrder) : OrderModel :=
  { id := some o.id, date := some o.date, items := o.items,
    customer := o.customer, total := some o.total,
    unique_order_id := some o.unique_order_id }

/-! ## Catalog endpoints (src/main.py) -/

/-- The product row inserted by create_product: every field is copied from
the request except id, which is the server-assigned autoincrement key. -/
def newProductRow (db : DB) (product : ProductModel) : Product :=
  { id := db.nextProductId, name := product.name,
    description := product.description, price := product.price,
    image := product.image, available := product.available,
    eventOnly := product.eventOnly, eventId := product.eventId,
    applicableAddons := product.applicableAddons }

/-- POST /api/products (src/main.py create_product): validates the
eventOnly/eventId cross-field rule, then inserts a row whose id is the
server-assigned autoincrement key; the client-supplied id is never read. -/
def create_product (db : DB) (product : ProductModel) :
    Except HTTPException (DB × ProductModel) :=
  if product.eventOnly && product.eventId.isNone then
    .error ⟨400, "eventId is required when eventOnly is true"⟩
  else
    .ok ({ db with
            products := db.products ++ [newProductRow db product],
            nextProductId := db.nextProductId + 1 },
         productResponse (newProductRow db product))

/-- Replacement of the first row matching the id, in place: models SQLAlchemy
mutating the single ORM object returned by .first(). -/
def replaceFirstProduct : List Product → Int → Product → List Product
  | [], _, _ => []
  | p :: rest, pid, newP =>
    if p.id == pid then newP :: rest else p :: replaceFirstProduct rest pid newP

/-- PUT /api/products/{product_id} (src/main.py update_product): 404 if the id
is absent, re-checks the eventOnly/eventId rule, then overwrites every field
except id. -/
def update_product (db : DB) (product_id : Int) (updated_product : ProductModel) :
    Except HTTPException (DB × ProductModel) :=
  match lookupProduct db product_id with
  | none => .error ⟨404, "Product not found"⟩
  | some db_product =>
    if updated_product.eventOnly && updated_product.eventId.isNone then
      .error ⟨400, "eventId is required when eventOnly is true"⟩
    else
      let newP : Product :=
        { id := db_product.id, name := updated_product.name,
          description := updated_product.description,
          price := updated_product.price, image := updated_product.image,
          available := updated_product.available,
          eventOnly := updated_product.eventOnly,
          eventId := updated_product.eventId,
          applicableAddons := updated_product.applicableAddons }
      .ok ({ db with products := replaceFirstProduct db.products product_id newP },
           productResponse newP)

/-- The addon row inserted by create_addon: id is server-assigned. -/
def newAddonRow (db : DB) (addon : AddonModel) : Addon :=
  { id := db.nextAddonId, name := addon.name,
    description := addon.description, price := addon.price,
    available := addon.available,
    applicableProducts := addon.applicableProducts }

/-- POST /api/addons (src/main.py create_addon): rejects a duplicate
client-supplied id with a conflict error, then inserts a row whose id is
server-assigned. `filter(Addon.id == addon.id)` with a None id matches no row
(`id IS NULL` never holds of a primary key). -/
def create_addon (db : DB) (addon : AddonModel) :
    Except HTTPException (DB × AddonModel) :=
  match db.addons.find? (fun a => addon.id == some a.id) with
  | some _ => .error ⟨400, "Addon with this ID already exists"⟩
  | none =>
    .ok ({ db with
            addons := db.addons ++ [newAddonRow db addon],
            nextAddonId := db.nextAddonId + 1 },
         addonResponse (newAddonRow db addon))

/-- The event row inserted by create_event: id is server-assigned. -/
def newEventRow (db : DB) (event : EventModel) : Event :=
  { id := db.nextEventId, name := event.name,
    description := event.description, date := event.date,
    endDate := event.endDate, location := event.location,
    image := event.image, active := event.active,
    featured := event.featured }

/-- POST /api/events (src/main.py create_event): first rejects a duplicate
client-supplied id with a conflict error, then validates endDate > date, then
inserts a row whose id is server-assigned. -/
def create_event (db : DB) (event : EventModel) :
    Except HTTPException (DB × EventModel) :=
  match db.events.find? (fun e => event.id == some e.id) with
  | some _ => .error ⟨400, "Event with this ID already exists"⟩
  | none =>
    if event.endDate ≤ event.date then
      .error ⟨400, "endDate must be after date"⟩
    else
      .ok ({ db with
              events := db.events ++ [newEventRow db event],
              nextEventId := db.nextEventId + 1 },
           eventResponse (newEventRow db event))

/-! ## Order pricing (src/main.py create_order / update_order_by_unique_id,
the shared "total_price" loop) -/

/-- Inner loop of the pricing computation: for each OrderAddon, resolve the
addon (404 naming the id if absent) and add addon.price * quantity. -/
def addonsTotal (db : DB) : List OrderAddon → Except HTTPException ℚ
  | [] => .ok 0
  | addon_item :: rest =>
    match lookupAddon db addon_item.addonId with
    | none =>
      .error ⟨404, "Addon with ID " ++ toString addon_item.addonId ++ " not found"⟩
    | some addon => do
      let restTotal ← addonsTotal db rest
      .ok (addon.price * (addon_item.quantity : ℚ) + restTotal)

/-- Outer loop of the pricing computation: for each OrderItem, resolve the
product (404 naming the id if absent), add product.price * quantity, then
process the item's addons in order. -/
def itemsTotal (db : DB) : List OrderItem → Except HTTPException ℚ
  | [] => .ok 0
  | item :: rest =>
    match lookupProduct db item.productId with
    | none =>
      .error ⟨404, "Product with ID " ++ toString item.productId ++ " not found"⟩
    | some product => do
      let addonsPart ← addonsTotal db item.addons
      let restTotal ← itemsTotal db rest
      .ok (product.price * (item.quantity : ℚ) + addonsPart + restTotal)

/-- POST /api/orders (src/main.py create_order). `current_date` stands for
datetime.now(timezone.utc) and `new_uuid` for uuid.uuid4().hex, both ambient
inputs of the handler. The client-supplied id/date/total/unique_order_id
fields of the request are never read. -/
def create_order (db : DB) (order : OrderModel) (current_date : Int)
    (new_uuid : String) : Except HTTPException (DB × OrderModel) := do
  let total_price ← itemsTotal db order.items
  let db_order : StoredOrder :=
    { id := db.nextOrderId, date := current_date, unique_order_id := new_uuid,
      items := order.items, customer := order.customer, total := total_price }
  .ok ({ db with
          orders := db.orders ++ [db_order],
          nextOrderId := db.nextOrderId + 1 },
       { id := some db_order.id, date := some db_order.date,
         items := order.items, customer := order.customer,
         total := some db_order.total,
         unique_order_id := some db_order.unique_order_id })

/-- Replacement of the first order row matching the internal id. -/
def replaceFirstOrder : List StoredOrder → Int → StoredOrder → List StoredOrder
  | [], _, _ => []
  | o :: rest, oid, newO =>
    if o.id == oid then newO :: rest else o :: replaceFirstOrder rest oid newO

/-- PUT /api/orders/unique/{order_id} (src/main.py update_order_by_unique_id).
Despite its name, the source filters on the internal `Order.id` column. It
re-runs the pricing loop on the new item list, overwrites items/customer/total
of the found row (date and unique_order_id are not touched), and returns the
client's request object unchanged. -/
def update_order_by_unique_id (db : DB) (order_id : Int)
    (updated_order : OrderModel) : Except HTTPException (DB × OrderModel) :=
  match db.orders.find? (fun o => o.id == order_id) with
  | none => .error ⟨404, "Order not found"⟩
  | some db_order => do
    let total_price ← itemsTotal db updated_order.items
    let newO : StoredOrder :=
      { db_order with
          items := updated_order.items,
          customer := updated_order.customer,
          total := total_price }
    .ok ({ db with
            orders := replaceFirstOrder db.orders order_id newO },
         updated_order)

/-- GET /api/orders/unique/{unique_order_id} (src/main.py
get_order_by_unique_id): finds the row by the external unique id and
deserializes the blobs; 404 if no row matches. -/
def get_order_by_unique_id (db : DB) (uid : String) :
    Except HTTPException OrderModel :=
  match db.orders.find? (fun o => o.unique_order_id == uid) with
  | none => .error ⟨404, "Order not found"⟩
  | some order => .ok (orderResponse order)

/-! ## Token verification and the gated order listing

`verify_token` is imported at src/main.py line 11 from src/auth.py but is not
defined anywhere under src/; only its caller (get_orders) and the issuing
side (create_access_token, which signs claims with SECRET_KEY and an absolute
expiry) are present. It is therefore modelled from the spec (§4.2). -/

/-- Claims carried by an access token: create_access_token embeds the subject,
the admin id, and an absolute expiry timestamp. -/
structure TokenClaims where
  sub : String
  id : Int
  exp : Int
deriving DecidableEq

/-- A presented bearer token: either malformed, or a claims payload together
with a signature string. -/
inductive Token where
  | malformed (raw : String)
  | signed (claims : TokenClaims) (signature : String)
deriving DecidableEq

/-- Modelled from the spec: the symmetric signing primitive of §4.2 ("Signing
uses a symmetric secret held in process-wide configuration"); HS256 over the
claims is modelled as an injective tagged encoding of secret and claims. -/
def sign (secret_key : String) (claims : TokenClaims) : String :=
  "HS256:" ++ secret_key ++ ":" ++ claims.sub ++ ":" ++ toString claims.id
    ++ ":" ++ toString claims.exp

/-- Modelled from the spec: `verify_token` (§4.2), missing from src/ (imported
at src/main.py line 11 but not defined in src/auth.py). "fails with AuthError
when the signature is invalid, the token is malformed, or the expiry has
passed"; on success it returns the claims. AuthError is rendered as status
401 per §6. -/
def verify_token (secret_key : String) (now : Int) (credentials : Option Token) :
    Except HTTPException TokenClaims :=
  match credentials with
  | none => .error ⟨401, "Not authenticated"⟩
  | some (.malformed _) => .error ⟨401, "Invalid token"⟩
  | some (.signed claims signature) =>
    if signature ≠ sign secret_key claims then
      .error ⟨401, "Invalid token"⟩
    else if claims.exp ≤ now then
      .error ⟨401, "Token expired"⟩
    else
      .ok claims

/-- GET /api/orders (src/main.py get_orders): gated by verify_token, then
returns every row of the orders table, deserialized, in storage order. -/
def get_orders (secret_key : String) (now : Int) (credentials : Option Token)
    (db : DB) : Except HTTPException (List OrderModel) := do
  let _ ← verify_token secret_key now credentials
  .ok (db.orders.map orderResponse)

/-! ## Specification-side definitions

These restate the spec's description of the total ("the sum over items of
product.price × item.quantity plus the sum over each item's addons of
addon.price × addon.quantity, taken from the catalog's currently stored
prices") as a direct sum, to be compared with the loop above. -/

/-- Contribution of one nested OrderAddon to the spec's total. -/
def specAddonPart (db : DB) (a : OrderAddon) : ℚ :=
  match lookupAddon db a.addonId with
  | some addon => addon.price * (a.quantity : ℚ)
  | none => 0

/-- Contribution of one OrderItem to the spec's total: product price times
quantity plus the sum over the item's addons. -/
def specItemTotal (db : DB) (item : OrderItem) : ℚ :=
  (match lookupProduct db item.productId with
   | some product => product.price * (item.quantity : ℚ)
   | none => 0) +
  (item.addons.map (specAddonPart db)).sum

/-- The spec's total: sum over items of the per-item contribution. -/
def specOrderTotal (db : DB) (items : List OrderItem) : ℚ :=
  (items.map (specItemTotal db)).sum

/-- Every addon referenced in the list exists in the catalog. -/
def addonRefsExist (db : DB) (addons : List OrderAddon) : Bool :=
  addons.all (fun a => (lookupAddon db a.addonId).isSome)

/-- Every product and every nested addon referenced by the item list exists. -/
def allRefsExist (db : DB) (items : List OrderItem) : Bool :=
  items.all (fun item =>
    (lookupProduct db item.productId).isSome && addonRefsExist db item.addons)

/-- A presented credential is a well-signed, unexpired token. -/
def validToken (secret_key : String) (now : Int) (credentials : Option Token) :
    Bool :=
  match credentials with
  | some (.signed claims signature) =>
    signature == sign secret_key claims && decide (now < claims.exp)
  | _ => false

/-- The error names a missing product or addon reference of the item list,
by entity kind and id, exactly as the source formats it. -/
def namesMissingRef (db : DB) (items : List OrderItem) (e : HTTPException) :
    Prop :=
  (∃ item ∈ items, lookupProduct db item.productId = none ∧
     e.detail = "Product with ID " ++ toString item.productId ++ " not found") ∨
  (∃ item ∈ items, ∃ a ∈ item.addons, lookupAddon db a.addonId = none ∧
     e.detail = "Addon with ID " ++ toString a.addonId ++ " not found")

/-! ## Pricing loop versus spec sum -/

/-- When every referenced addon exists, the addon loop returns the sum of
addon.price × quantity over the list. -/
theorem addonsTotal_ok (db : DB) : ∀ (addons : List OrderAddon),
    addonRefsExist db addons = true →
    addonsTotal db addons = .ok ((addons.map (specAddonPart db)).sum)
  | [] => by
    intro h
    simp [addonsTotal]
  | a :: rest => by
    intro h
    simp only [addonRefsExist, List.all_cons, Bool.and_eq_true] at h
    obtain ⟨h1, h2⟩ := h
    obtain ⟨addon, ha⟩ := Option.isSome_iff_exists.mp h1
    have ihr := addonsTotal_ok db rest (by simpa [addonRefsExist] using h2)
    simp [addonsTotal, ha, ihr, specAddonPart, Except.instMonad, Except.bind]

/-- When every referenced product and addon exists, the pricing loop returns
exactly the spec's sum. -/
theorem itemsTotal_ok (db : DB) : ∀ (items : List OrderItem),
    allRefsExist db items = true →
    itemsTotal db items = .ok (specOrderTotal db items)
  | [] => by
    intro h
    simp [itemsTotal, specOrderTotal]
  | item :: rest => by
    intro h
    simp only [allRefsExist, List.all_cons, Bool.and_eq_true] at h
    obtain ⟨⟨h1, h2⟩, h3⟩ := h
    obtain ⟨product, hp⟩ := Option.isSome_iff_exists.mp h1
    have ha := addonsTotal_ok db item.addons h2
    have ihr := itemsTotal_ok db rest (by simpa [allRefsExist] using h3)
    simp [itemsTotal, hp, ha, ihr, specOrderTotal, specItemTotal,
      Except.instMonad, Except.bind]

/-- When some referenced addon is missing, the addon loop fails with a 404
naming the first missing addon id. -/
theorem addonsTotal_err (db : DB) : ∀ (addons : List OrderAddon),
    addonRefsExist db addons = false →
    ∃ e, addonsTotal db addons = .error e ∧ e.status_code = 404 ∧
      ∃ a ∈ addons, lookupAddon db a.addonId = none ∧
        e.detail = "Addon with ID " ++ toString a.addonId ++ " not found"
  | [] => by
    intro h
    simp [addonRefsExist] at h
  | a :: rest => by
    intro h
    cases ha : lookupAddon db a.addonId with
    | none =>
      refine ⟨⟨404, "Addon with ID " ++ toString a.addonId ++ " not found"⟩,
        by simp [addonsTotal, ha], rfl, a, by simp, ha, rfl⟩
    | some addon =>
      have h2 : addonRefsExist db rest = false := by
        simp only [addonRefsExist, List.all_cons, ha] at h ⊢
        simpa using h
      obtain ⟨e, he, hs, b, hb, hlb, hd⟩ := addonsTotal_err db rest h2
      exact ⟨e, by simp [addonsTotal, ha, he, Except.instMonad, Except.bind],
        hs, b, List.mem_cons_of_mem a hb, hlb, hd⟩

/-- Weakening of `namesMissingRef` along list cons. -/
theorem namesMissingRef_cons (db : DB) (item : OrderItem)
    (items : List OrderItem) (e : HTTPException)
    (h : namesMissingRef db items e) : namesMissingRef db (item :: items) e := by
  rcases h with ⟨it, hit, hl, hd⟩ | ⟨it, hit, a, haa, hl, hd⟩
  · exact Or.inl ⟨it, List.mem_cons_of_mem item hit, hl, hd⟩
  · exact Or.inr ⟨it, List.mem_cons_of_mem item hit, a, haa, hl, hd⟩

/-- When some referenced product or addon is missing, the pricing loop fails
with a 404 naming a missing entity and its id. -/
theorem itemsTotal_err (db : DB) : ∀ (items : List OrderItem),
    allRefsExist db items = false →
    ∃ e, itemsTotal db items = .error e ∧ e.status_code = 404 ∧
      namesMissingRef db items e
  | [] => by
    intro h
    simp [allRefsExist] at h
  | item :: rest => by
    intro h
    cases hp : lookupProduct db item.productId with
    | none =>
      refine ⟨⟨404, "Product with ID " ++ toString item.productId ++ " not found"⟩,
        by simp [itemsTotal, hp], rfl,
        Or.inl ⟨item, by simp, hp, rfl⟩⟩
    | some product =>
      cases hadd : addonRefsExist db item.addons with
      | false =>
        obtain ⟨e, he, hs, a, haa, hla, hd⟩ := addonsTotal_err db item.addons hadd
        refine ⟨e, ?_, hs, Or.inr ⟨item, by simp, a, haa, hla, hd⟩⟩
        simp [itemsTotal, hp, he, Except.instMonad, Except.bind]
      | true =>
        have h3 : allRefsExist db rest = false := by
          simp only [allRefsExist, List.all_cons, hp, hadd] at h ⊢
          simpa using h
        obtain ⟨e, he, hs, hn⟩ := itemsTotal_err db rest h3
        refine ⟨e, ?_, hs, namesMissingRef_cons db item rest e hn⟩
        simp [itemsTotal, hp, addonsTotal_ok db item.addons hadd, he,
          Except.instMonad, Except.bind]

/-! ## List helper lemmas -/

/-- Replacing the first matching order inside `pre ++ o₀ :: post` when nothing
in `pre` matches replaces exactly `o₀`. -/
theorem replaceFirstOrder_append (oid : Int) (newO : StoredOrder) :
    ∀ (pre : List StoredOrder) (post : List StoredOrder) (o₀ : StoredOrder),
    (∀ o ∈ pre, o.id ≠ oid) → o₀.id = oid →
    replaceFirstOrder (pre ++ o₀ :: post) oid newO = pre ++ newO :: post
  | [], post, o₀ => by
    intro _ h0
    simp [replaceFirstOrder, h0]
  | p :: pre, post, o₀ => by
    intro hpre h0
    have hp : (p.id == oid) = false := by
      simpa using hpre p (by simp)
    simp [replaceFirstOrder, hp,
      replaceFirstOrder_append oid newO pre post o₀
        (fun o ho => hpre o (List.mem_cons_of_mem p ho)) h0]

/-- `find?` over `pre ++ o₀ :: post` when nothing in `pre` matches finds
exactly `o₀`. -/
theorem find?_middle (p : StoredOrder → Bool) :
    ∀ (pre : List StoredOrder) (post : List StoredOrder) (o₀ : StoredOrder),
    (∀ o ∈ pre, p o = false) → p o₀ = true →
    (pre ++ o₀ :: post).find? p = some o₀
  | [], post, o₀ => by
    intro _ h0
    simp [List.find?_cons, h0]
  | q :: pre, post, o₀ => by
    intro hpre h0
    have hq := hpre q (by simp)
    simp [List.find?_cons, hq,
      find?_middle p pre post o₀ (fun o ho => hpre o (List.mem_cons_of_mem q ho)) h0]

/-! ## Concrete fixtures used by witnesses and counterexamples -/

/-- A stored product: price 5, deliberately unavailable. -/
def exProduct : Product :=
  { id := 1, name := "Chocolate Cake", description := "Rich chocolate cake",
    price := 5, image := "cake.png", available := some false,
    eventOnly := false, eventId := none, applicableAddons := [2] }

/-- A stored addon: price 3/2, deliberately unavailable. -/
def exAddon : Addon :=
  { id := 2, name := "Candles", description := "Pack of candles",
    price := 3 / 2, available := false, applicableProducts := [1] }

/-- A stored event with date 10 and endDate 20. -/
def exEvent : Event :=
  { id := 3, name := "Spring Fair", description := "Annual fair", date := 10,
    endDate := 20, location := "Main square", image := "fair.png",
    active := true, featured := false }

/-- A customer payload. -/
def exCustomer : OrderCustomer :=
  { name := "Ada", email := "ada@example.com", phone := "555-0100",
    contactMethod := "email", delivery := false, deliveryAddress := none,
    pickupAtEvent := false }

/-- A pre-existing stored order with unique id "u0". -/
def exStoredOrder : StoredOrder :=
  { id := 1, date := 5, unique_order_id := "u0",
    items := [{ productId := 1, quantity := 1, addons := [] }],
    customer := exCustomer, total := 5 }

/-- The example store state. -/
def exDB : DB :=
  { products := [exProduct], addons := [exAddon], events := [exEvent],
    orders := [exStoredOrder], nextProductId := 2, nextAddonId := 3,
    nextEventId := 4, nextOrderId := 2 }

/-- An order-creation request: 2 cakes with 2 candle packs, carrying junk
client-supplied id/date/total/unique_order_id fields. Spec total:
5 * 2 + (3/2) * 2 = 13. -/
def exOrderReq : OrderModel :=
  { id := some 77, date := some 99,
    items := [{ productId := 1, quantity := 2,
                addons := [{ addonId := 2, quantity := 2, notes := some "" }] }],
    customer := exCustomer, total := some 999,
    unique_order_id := some "client-junk" }

/-- An order-creation request naming a product id absent from the catalog. -/
def badOrderReq : OrderModel :=
  { items := [{ productId := 42, quantity := 1, addons := [] }],
    customer := exCustomer }

/-! ## Claims -/

/-- C1: for an order-creation request whose items all reference existing
products and whose nested addons all reference existing addons, the stored
and the returned total both equal the sum over items of product.price ×
item.quantity plus the sum over each item's addons of addon.price ×
addon.quantity, taken from the currently stored prices; the client-supplied
total is ignored; if a referenced product or addon id is absent, the request
fails with a 404 naming that entity and id. -/
theorem C1_create_order_total (db : DB) (order : OrderModel) (now : Int)
    (uuid : String) :
    (allRefsExist db order.items = true →
      create_order db order now uuid =
        .ok ({ db with
                orders := db.orders ++
                  [{ id := db.nextOrderId, date := now, unique_order_id := uuid,
                     items := order.items, customer := order.customer,
                     total := specOrderTotal db order.items }],
                nextOrderId := db.nextOrderId + 1 },
             { id := some db.nextOrderId, date := some now,
               items := order.items, customer := order.customer,
               total := some (specOrderTotal db order.items),
               unique_order_id := some uuid })) ∧
    (∀ t, create_order db { order with total := t } now uuid =
      create_order db order now uuid) ∧
    (allRefsExist db order.items = false →
      ∃ e, create_order db order now uuid = .error e ∧ e.status_code = 404 ∧
        namesMissingRef db order.items e) := by
  refine ⟨?_, fun t => rfl, ?_⟩
  · intro h
    simp [create_order, itemsTotal_ok db order.items h, Except.instMonad,
      Except.bind]
  · intro h
    obtain ⟨e, he, hs, hn⟩ := itemsTotal_err db order.items h
    exact ⟨e, by simp [create_order, he, Except.instMonad, Except.bind], hs, hn⟩

/-- Witness for C1 at the example store: the hypotheses hold, the total is 13
= 5 * 2 + (3/2) * 2, and the 404 branch fires on a dangling product id. -/
theorem C1_create_order_total_witness :
    allRefsExist exDB exOrderReq.items = true ∧
    specOrderTotal exDB exOrderReq.items = 13 ∧
    create_order exDB exOrderReq 7 "u1" =
      .ok ({ exDB with
              orders := exDB.orders ++
                [{ id := exDB.nextOrderId, date := 7, unique_order_id := "u1",
                   items := exOrderReq.items, customer := exOrderReq.customer,
                   total := 13 }],
              nextOrderId := exDB.nextOrderId + 1 },
           { id := some exDB.nextOrderId, date := some 7,
             items := exOrderReq.items, customer := exOrderReq.customer,
             total := some 13, unique_order_id := some "u1" }) ∧
    (∃ e, create_order exDB badOrderReq 7 "u2" = .error e ∧
      e.status_code = 404 ∧ namesMissingRef exDB badOrderReq.items e) := by
  have h13 : specOrderTotal exDB exOrderReq.items = 13 := by
    simp [specOrderTotal, specItemTotal, specAddonPart, lookupProduct,
      lookupAddon, exDB, exProduct, exAddon, exOrderReq]
    norm_num
  have h := (C1_create_order_total exDB exOrderReq 7 "u1").1 (by decide)
  rw [h13] at h
  exact ⟨by decide, h13, h,
    (C1_create_order_total exDB badOrderReq 7 "u2").2.2 (by decide)⟩

/-- C2: an order successfully created under a fresh unique id reads back by
that id (getOrderByExternalId) with the same items, customer and total; a
unique id matching no stored order yields a 404. -/
theorem C2_roundtrip (db : DB) (order : OrderModel) (now : Int)
    (uuid : String) :
    (∀ db' resp, (∀ o ∈ db.orders, o.unique_order_id ≠ uuid) →
      create_order db order now uuid = .ok (db', resp) →
      resp.unique_order_id = some uuid ∧
      ∃ m, get_order_by_unique_id db' uuid = .ok m ∧
        m.items = order.items ∧ m.customer = order.customer ∧
        m.total = resp.total) ∧
    (∀ uid, (∀ o ∈ db.orders, o.unique_order_id ≠ uid) →
      get_order_by_unique_id db uid = .error ⟨404, "Order not found"⟩) := by
  constructor
  · intro db' resp hfresh hok
    cases hT : itemsTotal db order.items with
    | error e =>
      simp [create_order, hT, Except.instMonad, Except.bind] at hok
    | ok t =>
      simp only [create_order, hT, Except.instMonad, Except.bind,
        Except.ok.injEq, Prod.mk.injEq] at hok
      obtain ⟨hdb, hresp⟩ := hok
      subst hdb
      subst hresp
      have hnone : db.orders.find? (fun o => o.unique_order_id == uuid) = none :=
        List.find?_eq_none.mpr (fun o ho => by simpa using hfresh o ho)
      refine ⟨rfl,
        orderResponse
          { id := db.nextOrderId, date := now, unique_order_id := uuid,
            items := order.items, customer := order.customer, total := t },
        ?_, rfl, rfl, rfl⟩
      simp [get_order_by_unique_id, List.find?_append, hnone, orderResponse]
  · intro uid hfresh
    have hfind : db.orders.find? (fun o => o.unique_order_id == uid) = none :=
      List.find?_eq_none.mpr (fun o ho => by simpa using hfresh o ho)
    simp [get_order_by_unique_id, hfind]

/-- Witness for C2 at the example store: "u1" is fresh, the created order
reads back with the same items/customer/total, and a never-used id 404s. -/
theorem C2_roundtrip_witness :
    (∃ m, get_order_by_unique_id
        ({ exDB with
            orders := exDB.orders ++
              [{ id := exDB.nextOrderId, date := 7, unique_order_id := "u1",
                 items := exOrderReq.items, customer := exOrderReq.customer,
                 total := 13 }],
            nextOrderId := exDB.nextOrderId + 1 }) "u1" = .ok m ∧
      m.items = exOrderReq.items ∧ m.customer = exOrderReq.customer ∧
      m.total = some 13) ∧
    get_order_by_unique_id exDB "never-assigned" =
      .error ⟨404, "Order not found"⟩ := by
  have h13 : specOrderTotal exDB exOrderReq.items = 13 := by
    simp [specOrderTotal, specItemTotal, specAddonPart, lookupProduct,
      lookupAddon, exDB, exProduct, exAddon, exOrderReq]
    norm_num
  have hok : create_order exDB exOrderReq 7 "u1" =
      .ok ({ exDB with
              orders := exDB.orders ++
                [{ id := exDB.nextOrderId, date := 7, unique_order_id := "u1",
                   items := exOrderReq.items, customer := exOrderReq.customer,
                   total := 13 }],
              nextOrderId := exDB.nextOrderId + 1 },
           { id := some exDB.nextOrderId, date := some 7,
             items := exOrderReq.items, customer := exOrderReq.customer,
             total := some 13, unique_order_id := some "u1" }) := by
    simp [create_order, itemsTotal_ok exDB exOrderReq.items (by decide), h13,
      Except.instMonad, Except.bind]
  have hfresh : ∀ o ∈ exDB.orders, o.unique_order_id ≠ "u1" := by decide
  have h2 := (C2_roundtrip exDB exOrderReq 7 "u1").1 _ _ hfresh hok
  refine ⟨?_, (C2_roundtrip exDB exOrderReq 7 "u1").2 "never-assigned" (by decide)⟩
  obtain ⟨-, m, hm, hi, hc, ht⟩ := h2
  exact ⟨m, hm, hi, hc, ht⟩

/-- An order-update request: 3 cakes, no addons. Spec total: 5 * 3 = 15. -/
def exUpdateReq : OrderModel :=
  { items := [{ productId := 1, quantity := 3, addons := [] }],
    customer := exCustomer }

/-- An order-update request carrying junk client-supplied id/date/total/
unique_order_id fields next to the same new item list. -/
def exJunkUpdateReq : OrderModel :=
  { id := some 88, date := some 123,
    items := [{ productId := 1, quantity := 3, addons := [] }],
    customer := exCustomer, total := some 0,
    unique_order_id := some "junk" }

/-- Successful update, in terms of the row found and the recomputed total:
shared shape lemma for the update-order claims. -/
theorem update_order_ok_form (db : DB) (oid : Int) (u : OrderModel)
    (o₀ : StoredOrder) (t : ℚ)
    (hfind : db.orders.find? (fun o => o.id == oid) = some o₀)
    (hT : itemsTotal db u.items = .ok t) :
    update_order_by_unique_id db oid u =
      .ok ({ db with
              orders := replaceFirstOrder db.orders oid
                { o₀ with
                    items := u.items, customer := u.customer, total := t } },
           u) := by
  simp [update_order_by_unique_id, hfind, hT, Except.instMonad, Except.bind]

/-- C3: for a stored order addressed by its internal id and an update request
whose new item list references only existing products and addons, updateOrder
overwrites the stored items, customer and total — the total recomputed from
the new item list exactly as at creation — while the stored unique_order_id
and date are kept (they are carried over from the old row); when no order with
the addressed internal id exists it fails with a 404, producing no new store
state. -/
theorem C3_update_order (db : DB) (pre post : List StoredOrder)
    (o₀ : StoredOrder) (oid : Int) (updated_order : OrderModel) :
    (db.orders = pre ++ o₀ :: post → (∀ o ∈ pre, o.id ≠ oid) → o₀.id = oid →
      allRefsExist db updated_order.items = true →
      update_order_by_unique_id db oid updated_order =
        .ok ({ db with
                orders := pre ++
                  { o₀ with
                      items := updated_order.items,
                      customer := updated_order.customer,
                      total := specOrderTotal db updated_order.items } :: post },
             updated_order)) ∧
    ((∀ o ∈ db.orders, o.id ≠ oid) →
      update_order_by_unique_id db oid updated_order =
        .error ⟨404, "Order not found"⟩) := by
  constructor
  · intro horders hpre h0 hrefs
    have hfind : db.orders.find? (fun o => o.id == oid) = some o₀ := by
      rw [horders]
      apply find?_middle
      · intro o ho
        simpa using hpre o ho
      · simpa using h0
    rw [update_order_ok_form db oid updated_order o₀
      (specOrderTotal db updated_order.items) hfind
      (itemsTotal_ok db updated_order.items hrefs)]
    rw [horders,
      replaceFirstOrder_append oid _ pre post o₀ hpre h0]
  · intro hnone
    have hfind : db.orders.find? (fun o => o.id == oid) = none :=
      List.find?_eq_none.mpr (fun o ho => by simpa using hnone o ho)
    simp [update_order_by_unique_id, hfind]

/-- Witness for C3 at the example store: updating order 1 to 3 cakes stores
total 15 while keeping unique id "u0" and date 5, and internal id 999 404s. -/
theorem C3_update_order_witness :
    update_order_by_unique_id exDB 1 exUpdateReq =
      .ok ({ exDB with
              orders := [] ++
                { exStoredOrder with
                    items := exUpdateReq.items,
                    customer := exUpdateReq.customer,
                    total := 15 } :: [] },
           exUpdateReq) ∧
    ({ exStoredOrder with
        items := exUpdateReq.items, customer := exUpdateReq.customer,
        total := (15 : ℚ) } : StoredOrder).unique_order_id = "u0" ∧
    ({ exStoredOrder with
        items := exUpdateReq.items, customer := exUpdateReq.customer,
        total := (15 : ℚ) } : StoredOrder).date = 5 ∧
    update_order_by_unique_id exDB 999 exUpdateReq =
      .error ⟨404, "Order not found"⟩ := by
  have h15 : specOrderTotal exDB exUpdateReq.items = 15 := by
    simp [specOrderTotal, specItemTotal, specAddonPart, lookupProduct,
      lookupAddon, exDB, exProduct, exAddon, exUpdateReq]
    norm_num
  have h := (C3_update_order exDB [] [] exStoredOrder 1 exUpdateReq).1
    rfl (by simp) rfl (by decide)
  rw [h15] at h
  exact ⟨h, rfl, rfl,
    (C3_update_order exDB [] [] exStoredOrder 999 exUpdateReq).2 (by decide)⟩

/-- C9: the response body of a successful order update is the client-supplied
request object echoed back unchanged, whatever its total, date and
unique_order_id fields hold. -/
theorem C9_update_response_echo (db : DB) (oid : Int)
    (updated_order : OrderModel) :
    ∀ db' resp, update_order_by_unique_id db oid updated_order = .ok (db', resp) →
      resp = updated_order := by
  intro db' resp hok
  cases hfind : db.orders.find? (fun o => o.id == oid) with
  | none => simp [update_order_by_unique_id, hfind] at hok
  | some o =>
    cases hT : itemsTotal db updated_order.items with
    | error e =>
      simp [update_order_by_unique_id, hfind, hT, Except.instMonad,
        Except.bind] at hok
    | ok t =>
      simp only [update_order_by_unique_id, hfind, hT, Except.instMonad,
        Except.bind, Except.ok.injEq, Prod.mk.injEq] at hok
      exact hok.2.symm

/-- Witness for C9: a successful update whose request carries junk total 0,
date 123 and unique id "junk" is answered with that very object, junk fields
included (the stored row, by contrast, got total 15). -/
theorem C9_update_response_echo_witness :
    ∃ db' resp, update_order_by_unique_id exDB 1 exJunkUpdateReq =
      .ok (db', resp) ∧ resp = exJunkUpdateReq ∧ resp.total = some 0 ∧
      resp.date = some 123 ∧ resp.unique_order_id = some "junk" := by
  have h15 : specOrderTotal exDB exJunkUpdateReq.items = 15 := by
    simp [specOrderTotal, specItemTotal, specAddonPart, lookupProduct,
      lookupAddon, exDB, exProduct, exAddon, exJunkUpdateReq]
    norm_num
  have hT : itemsTotal exDB exJunkUpdateReq.items = .ok 15 := by
    rw [itemsTotal_ok exDB exJunkUpdateReq.items (by decide), h15]
  have hok := update_order_ok_form exDB 1 exJunkUpdateReq exStoredOrder 15
    rfl hT
  exact ⟨_, _, hok,
    C9_update_response_echo exDB 1 exJunkUpdateReq _ _ hok, rfl, rfl, rfl⟩

/-- Claims of an unexpired administrator token (exp 100). -/
def exClaims : TokenClaims := { sub := "admin", id := 1, exp := 100 }

/-- C4: listing orders without a valid token fails with an auth error (401);
with a well-signed, unexpired administrator token it succeeds and returns
every persisted order, deserialized, with no filtering or pagination. -/
theorem C4_list_orders_auth (secret_key : String) (now : Int)
    (cred : Option Token) (db : DB) :
    (validToken secret_key now cred = false →
      ∃ e, get_orders secret_key now cred db = .error e ∧
        e.status_code = 401) ∧
    (∀ claims, cred = some (.signed claims (sign secret_key claims)) →
      claims.sub = "admin" → now < claims.exp →
      get_orders secret_key now cred db = .ok (db.orders.map orderResponse)) := by
  constructor
  · intro h
    match cred with
    | none => exact ⟨⟨401, "Not authenticated"⟩, rfl, rfl⟩
    | some (.malformed raw) => exact ⟨⟨401, "Invalid token"⟩, rfl, rfl⟩
    | some (.signed claims signature) =>
      by_cases hs : signature = sign secret_key claims
      · subst hs
        have hexp : claims.exp ≤ now := by
          simpa [validToken, not_lt] using h
        refine ⟨⟨401, "Token expired"⟩, ?_, rfl⟩
        simp [get_orders, verify_token, hexp, Except.instMonad, Except.bind]
      · refine ⟨⟨401, "Invalid token"⟩, ?_, rfl⟩
        simp [get_orders, verify_token, hs, Except.instMonad, Except.bind]
  · intro claims hc hsub hexp
    subst hc
    simp [get_orders, verify_token, not_le.mpr hexp, Except.instMonad,
      Except.bind]

/-- Witness for C4: a signed, unexpired admin token at time 0 lists the whole
example store; a missing credential is answered 401. -/
theorem C4_list_orders_auth_witness :
    get_orders "secret" 0 (some (.signed exClaims (sign "secret" exClaims)))
      exDB = .ok (exDB.orders.map orderResponse) ∧
    (∃ e, get_orders "secret" 0 none exDB = .error e ∧
      e.status_code = 401) :=
  ⟨(C4_list_orders_auth "secret" 0
      (some (.signed exClaims (sign "secret" exClaims))) exDB).2 exClaims
      rfl rfl (by decide),
   (C4_list_orders_auth "secret" 0 none exDB).1 (by decide)⟩

/-- A create request re-using the existing addon id 2. -/
def dupAddonReq : AddonModel :=
  { id := some 2, name := "Ribbon", description := "Gift ribbon", price := 1,
    available := true, applicableProducts := [] }

/-- A create request re-using the existing event id 3, with valid dates. -/
def dupEventReq : EventModel :=
  { id := some 3, name := "Fair again", description := "Second fair",
    date := 0, endDate := 1, location := "Hall", image := "x.png",
    active := true, featured := false }

/-- A create request re-using the existing product id 1. -/
def dupProductReq : ProductModel :=
  { id := some 1, name := "Tart", description := "Lemon tart", price := 4,
    image := "tart.png", available := some true, applicableAddons := [],
    eventOnly := false, eventId := none }

/-- C5 counterexample: at the example store, a duplicate-id addon create AND a
duplicate-id event create both fail with a conflict error, while the
duplicate-id product create succeeds — so two of the three variants reject a
duplicate id, not exactly one. -/
theorem C5_counterexample :
    create_addon exDB dupAddonReq =
      .error ⟨400, "Addon with this ID already exists"⟩ ∧
    create_event exDB dupEventReq =
      .error ⟨400, "Event with this ID already exists"⟩ ∧
    (∃ db' r, create_product exDB dupProductReq = .ok (db', r)) :=
  ⟨rfl, rfl, ⟨_, _, rfl⟩⟩

/-- C5 amended: exactly two of the three catalog create operations — Addon
and Event — reject a create whose client-supplied id already exists with a
conflict error; Product create performs no duplicate check and does not fail
on a duplicate id (given its cross-field validation passes). -/
theorem C5_amended_duplicate_policy (db : DB) (i : Int) :
    ((∃ a ∈ db.addons, a.id = i) → ∀ m : AddonModel, m.id = some i →
      create_addon db m =
        .error ⟨400, "Addon with this ID already exists"⟩) ∧
    ((∃ ev ∈ db.events, ev.id = i) → ∀ m : EventModel, m.id = some i →
      create_event db m =
        .error ⟨400, "Event with this ID already exists"⟩) ∧
    (∀ p : ProductModel, (p.eventOnly && p.eventId.isNone) = false →
      ∃ db' r, create_product db p = .ok (db', r)) := by
  refine ⟨?_, ?_, ?_⟩
  · rintro ⟨a, ha, hai⟩ m hm
    have hsome : (db.addons.find? (fun x => m.id == some x.id)).isSome :=
      List.find?_isSome.mpr ⟨a, ha, by simp [hm, hai]⟩
    obtain ⟨w, hw⟩ := Option.isSome_iff_exists.mp hsome
    simp [create_addon, hw]
  · rintro ⟨ev, hev, hei⟩ m hm
    have hsome : (db.events.find? (fun x => m.id == some x.id)).isSome :=
      List.find?_isSome.mpr ⟨ev, hev, by simp [hm, hei]⟩
    obtain ⟨w, hw⟩ := Option.isSome_iff_exists.mp hsome
    simp [create_event, hw]
  · intro p hval
    refine ⟨{ db with
               products := db.products ++ [newProductRow db p],
               nextProductId := db.nextProductId + 1 },
      productResponse (newProductRow db p), ?_⟩
    unfold create_product
    rw [hval]
    rfl

/-- Witness for the amended C5 at the example store. -/
theorem C5_amended_duplicate_policy_witness :
    create_addon exDB dupAddonReq =
      .error ⟨400, "Addon with this ID already exists"⟩ ∧
    create_event exDB dupEventReq =
      .error ⟨400, "Event with this ID already exists"⟩ ∧
    (∃ db' r, create_product exDB dupProductReq = .ok (db', r)) :=
  ⟨(C5_amended_duplicate_policy exDB 2).1 ⟨exAddon, by simp [exDB], rfl⟩
      dupAddonReq rfl,
   (C5_amended_duplicate_policy exDB 3).2.1 ⟨exEvent, by simp [exDB], rfl⟩
      dupEventReq rfl,
   (C5_amended_duplicate_policy exDB 0).2.2 dupProductReq rfl⟩

/-- A product create with eventOnly true but no eventId. -/
def badProductReq : ProductModel :=
  { name := "Event cake", description := "Only at events", price := 2,
    image := "e.png", available := some true, applicableAddons := [],
    eventOnly := true, eventId := none }

/-- A product create with eventOnly true and an eventId. -/
def okEventProductReq : ProductModel :=
  { name := "Event cake", description := "Only at events", price := 2,
    image := "e.png", available := some true, applicableAddons := [],
    eventOnly := true, eventId := some 3 }

/-- C7: creating a Product with eventOnly true and eventId absent fails with
the validation error and persists nothing (the operation yields no new
state); with eventId set, or with eventOnly false, it succeeds; the same
cross-field rule is re-checked on Product update. -/
theorem C7_product_eventOnly_rule (db : DB) (pm : ProductModel) (pid : Int) :
    (pm.eventOnly = true → pm.eventId = none →
      create_product db pm =
        .error ⟨400, "eventId is required when eventOnly is true"⟩) ∧
    ((pm.eventOnly = false ∨ ∃ e, pm.eventId = some e) →
      ∃ db' r, create_product db pm = .ok (db', r)) ∧
    (∀ p₀, lookupProduct db pid = some p₀ → pm.eventOnly = true →
      pm.eventId = none →
      update_product db pid pm =
        .error ⟨400, "eventId is required when eventOnly is true"⟩) := by
  refine ⟨?_, ?_, ?_⟩
  · intro h1 h2
    simp [create_product, h1, h2]
  · intro h
    have hval : (pm.eventOnly && pm.eventId.isNone) = false := by
      rcases h with h | ⟨e, he⟩
      · simp [h]
      · simp [he]
    refine ⟨{ db with
               products := db.products ++ [newProductRow db pm],
               nextProductId := db.nextProductId + 1 },
      productResponse (newProductRow db pm), ?_⟩
    unfold create_product
    rw [hval]
    rfl
  · intro p₀ hp h1 h2
    simp [update_product, hp, h1, h2]

/-- Witness for C7 at the example store. -/
theorem C7_product_eventOnly_rule_witness :
    create_product exDB badProductReq =
      .error ⟨400, "eventId is required when eventOnly is true"⟩ ∧
    (∃ db' r, create_product exDB okEventProductReq = .ok (db', r)) ∧
    update_product exDB 1 badProductReq =
      .error ⟨400, "eventId is required when eventOnly is true"⟩ :=
  ⟨(C7_product_eventOnly_rule exDB badProductReq 1).1 rfl rfl,
   (C7_product_eventOnly_rule exDB okEventProductReq 1).2.1
      (Or.inr ⟨3, rfl⟩),
   (C7_product_eventOnly_rule exDB badProductReq 1).2.2 exProduct rfl rfl rfl⟩

/-- An event create re-using the existing id 3 with endDate ≤ date. -/
def dupEventBadDates : EventModel :=
  { id := some 3, name := "Clash", description := "d", date := 5, endDate := 5,
    location := "l", image := "i", active := true, featured := false }

/-- A fresh-id event create with endDate ≤ date. -/
def freshEventBadDates : EventModel :=
  { name := "Flash sale", description := "d", date := 5, endDate := 5,
    location := "l", image := "i", active := true, featured := false }

/-- A fresh-id event create with endDate > date. -/
def freshEventGoodDates : EventModel :=
  { name := "Flash sale", description := "d", date := 5, endDate := 6,
    location := "l", image := "i", active := true, featured := false }

/-- C8 counterexample: the duplicate-id conflict check runs before the date
validation, so an event create whose endDate is strictly after its date still
fails when its client-supplied id already exists (refuting "with endDate > date
it succeeds"), and an event create with endDate ≤ date and a duplicate id
fails with the conflict error, not the date validation error. -/
theorem C8_counterexample :
    create_event exDB dupEventReq =
      .error ⟨400, "Event with this ID already exists"⟩ ∧
    create_event exDB dupEventBadDates =
      .error ⟨400, "Event with this ID already exists"⟩ :=
  ⟨rfl, rfl⟩

/-- C8 amended: provided the client-supplied id does not match an existing
event, creating an Event with endDate ≤ date fails with the date validation
error and persists nothing, and creating an Event with endDate strictly after
date succeeds. -/
theorem C8_amended_event_dates (db : DB) (em : EventModel)
    (hid : ∀ ev ∈ db.events, em.id ≠ some ev.id) :
    (em.endDate ≤ em.date →
      create_event db em = .error ⟨400, "endDate must be after date"⟩) ∧
    (em.date < em.endDate → ∃ db' r, create_event db em = .ok (db', r)) := by
  have hfind : db.events.find? (fun e => em.id == some e.id) = none :=
    List.find?_eq_none.mpr (fun e he => by simpa using hid e he)
  constructor
  · intro h
    simp [create_event, hfind, h]
  · intro h
    refine ⟨{ db with
               events := db.events ++ [newEventRow db em],
               nextEventId := db.nextEventId + 1 },
      eventResponse (newEventRow db em), ?_⟩
    unfold create_event
    rw [hfind]
    rw [if_neg (not_le.mpr h)]

/-- Witness for the amended C8 at the example store, with fresh ids. -/
theorem C8_amended_event_dates_witness :
    create_event exDB freshEventBadDates =
      .error ⟨400, "endDate must be after date"⟩ ∧
    (∃ db' r, create_event exDB freshEventGoodDates = .ok (db', r)) :=
  ⟨(C8_amended_event_dates exDB freshEventBadDates (by decide)).1 (by decide),
   (C8_amended_event_dates exDB freshEventGoodDates (by decide)).2 (by decide)⟩

/-- Successful creation, in terms of the computed total: shared shape lemma
for the order-creation claims. -/
theorem create_order_ok_form (db : DB) (order : OrderModel) (now : Int)
    (uuid : String) (t : ℚ) (hT : itemsTotal db order.items = .ok t) :
    create_order db order now uuid =
      .ok ({ db with
              orders := db.orders ++
                [{ id := db.nextOrderId, date := now, unique_order_id := uuid,
                   items := order.items, customer := order.customer,
                   total := t }],
              nextOrderId := db.nextOrderId + 1 },
           { id := some db.nextOrderId, date := some now,
             items := order.items, customer := order.customer,
             total := some t, unique_order_id := some uuid }) := by
  simp [create_order, hT, Except.instMonad, Except.bind]

/-- The same catalog with every product and every addon marked unavailable. -/
def unavailAll (db : DB) : DB :=
  { db with
      products := db.products.map (fun p => { p with available := some false }),
      addons := db.addons.map (fun a => { a with available := false }) }

/-- Marking everything unavailable commutes with product lookup. -/
theorem lookupProduct_unavailAll (db : DB) (pid : Int) :
    lookupProduct (unavailAll db) pid =
      (lookupProduct db pid).map (fun p => { p with available := some false }) := by
  show (db.products.map
      (fun p => ({ p with available := some false } : Product))).find?
      (fun p => p.id == pid) =
    (db.products.find? (fun p => p.id == pid)).map
      (fun p => { p with available := some false })
  exact List.find?_map _ db.products

/-- Marking everything unavailable commutes with addon lookup. -/
theorem lookupAddon_unavailAll (db : DB) (aid : Int) :
    lookupAddon (unavailAll db) aid =
      (lookupAddon db aid).map (fun a => { a with available := false }) := by
  show (db.addons.map (fun a => ({ a with available := false } : Addon))).find?
      (fun a => a.id == aid) =
    (db.addons.find? (fun a => a.id == aid)).map
      (fun a => { a with available := false })
  exact List.find?_map _ db.addons

/-- The addon pricing loop never reads the available flag. -/
theorem addonsTotal_unavailAll (db : DB) : ∀ (addons : List OrderAddon),
    addonsTotal (unavailAll db) addons = addonsTotal db addons
  | [] => rfl
  | a :: rest => by
    cases h : lookupAddon db a.addonId with
    | none => simp [addonsTotal, lookupAddon_unavailAll, h]
    | some addon =>
      simp [addonsTotal, lookupAddon_unavailAll, h,
        addonsTotal_unavailAll db rest]

/-- The pricing loop never reads the available flag of any product or addon. -/
theorem itemsTotal_unavailAll (db : DB) : ∀ (items : List OrderItem),
    itemsTotal (unavailAll db) items = itemsTotal db items
  | [] => rfl
  | item :: rest => by
    cases h : lookupProduct db item.productId with
    | none => simp [itemsTotal, lookupProduct_unavailAll, h]
    | some product =>
      simp [itemsTotal, lookupProduct_unavailAll, h,
        addonsTotal_unavailAll db item.addons,
        itemsTotal_unavailAll db rest]

/-- C6: order creation performs no availability check and leaves the catalog
untouched: a successful create changes no Product/Addon/Event table and no
catalog counter; the outcome (error or response, total included) on a catalog
with every available flag forced to false is identical to the outcome on the
original catalog; and when the referenced ids exist the create succeeds even
on the all-unavailable catalog. -/
theorem C6_no_catalog_effect (db : DB) (order : OrderModel) (now : Int)
    (uuid : String) :
    (∀ db' resp, create_order db order now uuid = .ok (db', resp) →
      db'.products = db.products ∧ db'.addons = db.addons ∧
      db'.events = db.events ∧ db'.nextProductId = db.nextProductId ∧
      db'.nextAddonId = db.nextAddonId ∧ db'.nextEventId = db.nextEventId) ∧
    Except.map Prod.snd (create_order (unavailAll db) order now uuid) =
      Except.map Prod.snd (create_order db order now uuid) ∧
    (allRefsExist db order.items = true →
      ∃ db' resp, create_order (unavailAll db) order now uuid =
        .ok (db', resp)) := by
  refine ⟨?_, ?_, ?_⟩
  · intro db' resp hok
    cases hT : itemsTotal db order.items with
    | error e =>
      simp [create_order, hT, Except.instMonad, Except.bind] at hok
    | ok t =>
      simp only [create_order, hT, Except.instMonad, Except.bind,
        Except.ok.injEq, Prod.mk.injEq] at hok
      obtain ⟨hdb, -⟩ := hok
      subst hdb
      exact ⟨rfl, rfl, rfl, rfl, rfl, rfl⟩
  · simp only [create_order, itemsTotal_unavailAll db order.items]
    cases hT : itemsTotal db order.items with
    | error e => rfl
    | ok t => rfl
  · intro h
    have hT : itemsTotal (unavailAll db) order.items =
        .ok (specOrderTotal db order.items) := by
      rw [itemsTotal_unavailAll db order.items, itemsTotal_ok db order.items h]
    exact ⟨_, _, create_order_ok_form (unavailAll db) order now uuid _ hT⟩

/-- Witness for C6 at the example store, whose product and addon are both
already unavailable. -/
theorem C6_no_catalog_effect_witness :
    (({ exDB with
         orders := exDB.orders ++
           [{ id := exDB.nextOrderId, date := 7, unique_order_id := "u9",
              items := exUpdateReq.items, customer := exUpdateReq.customer,
              total := 15 }],
         nextOrderId := exDB.nextOrderId + 1 } : DB).products =
        exDB.products ∧
      ({ exDB with
          orders := exDB.orders ++
            [{ id := exDB.nextOrderId, date := 7, unique_order_id := "u9",
               items := exUpdateReq.items, customer := exUpdateReq.customer,
               total := 15 }],
          nextOrderId := exDB.nextOrderId + 1 } : DB).addons = exDB.addons ∧
      ({ exDB with
          orders := exDB.orders ++
            [{ id := exDB.nextOrderId, date := 7, unique_order_id := "u9",
               items := exUpdateReq.items, customer := exUpdateReq.customer,
               total := 15 }],
          nextOrderId := exDB.nextOrderId + 1 } : DB).events = exDB.events ∧
      ({ exDB with
          orders := exDB.orders ++
            [{ id := exDB.nextOrderId, date := 7, unique_order_id := "u9",
               items := exUpdateReq.items, customer := exUpdateReq.customer,
               total := 15 }],
          nextOrderId := exDB.nextOrderId + 1 } : DB).nextProductId =
        exDB.nextProductId ∧
      ({ exDB with
          orders := exDB.orders ++
            [{ id := exDB.nextOrderId, date := 7, unique_order_id := "u9",
               items := exUpdateReq.items, customer := exUpdateReq.customer,
               total := 15 }],
          nextOrderId := exDB.nextOrderId + 1 } : DB).nextAddonId =
        exDB.nextAddonId ∧
      ({ exDB with
          orders := exDB.orders ++
            [{ id := exDB.nextOrderId, date := 7, unique_order_id := "u9",
               items := exUpdateReq.items, customer := exUpdateReq.customer,
               total := 15 }],
          nextOrderId := exDB.nextOrderId + 1 } : DB).nextEventId =
        exDB.nextEventId) ∧
    Except.map Prod.snd (create_order (unavailAll exDB) exUpdateReq 7 "u9") =
      Except.map Prod.snd (create_order exDB exUpdateReq 7 "u9") ∧
    (∃ db' resp, create_order (unavailAll exDB) exUpdateReq 7 "u9" =
      .ok (db', resp)) := by
  have h15 : specOrderTotal exDB exUpdateReq.items = 15 := by
    simp [specOrderTotal, specItemTotal, specAddonPart, lookupProduct,
      lookupAddon, exDB, exProduct, exAddon, exUpdateReq]
    norm_num
  have hT : itemsTotal exDB exUpdateReq.items = .ok 15 := by
    rw [itemsTotal_ok exDB exUpdateReq.items (by decide), h15]
  have hok := create_order_ok_form exDB exUpdateReq 7 "u9" 15 hT
  exact ⟨(C6_no_catalog_effect exDB exUpdateReq 7 "u9").1 _ _ hok,
    (C6_no_catalog_effect exDB exUpdateReq 7 "u9").2.1,
    (C6_no_catalog_effect exDB exUpdateReq 7 "u9").2.2 (by decide)⟩

/-- An addon create supplying a fresh client id 999. -/
def freshAddonReq : AddonModel :=
  { id := some 999, name := "Sprinkles", description := "Sugar sprinkles",
    price := 1, available := true, applicableProducts := [] }

/-- An event create supplying a fresh client id 999 and valid dates. -/
def freshEventReq : EventModel :=
  { id := some 999, name := "Expo", description := "Baking expo", date := 1,
    endDate := 2, location := "Hall B", image := "expo.png", active := true,
    featured := false }

/-- C10: for every Product, Addon or Event create, the stored row's id is the
server-assigned autoincrement key, never the client-supplied id — also in the
two variants (Addon, Event) that first check the client-supplied id for a
duplicate — and the response carries that server-assigned id. -/
theorem C10_server_assigned_ids (db : DB) (pm : ProductModel)
    (am : AddonModel) (em : EventModel) :
    (∀ db' r, create_product db pm = .ok (db', r) →
      ∃ p, db'.products = db.products ++ [p] ∧ p.id = db.nextProductId ∧
        r.id = some db.nextProductId) ∧
    (∀ db' r, create_addon db am = .ok (db', r) →
      ∃ a, db'.addons = db.addons ++ [a] ∧ a.id = db.nextAddonId ∧
        r.id = some db.nextAddonId) ∧
    (∀ db' r, create_event db em = .ok (db', r) →
      ∃ e, db'.events = db.events ++ [e] ∧ e.id = db.nextEventId ∧
        r.id = some db.nextEventId) := by
  refine ⟨?_, ?_, ?_⟩
  · intro db' r hok
    cases hcond : pm.eventOnly && pm.eventId.isNone with
    | true => simp [create_product, hcond] at hok
    | false =>
      simp only [create_product, hcond, Bool.false_eq_true, if_false,
        Except.ok.injEq, Prod.mk.injEq] at hok
      obtain ⟨hdb, hr⟩ := hok
      subst hdb
      subst hr
      exact ⟨newProductRow db pm, rfl, rfl, rfl⟩
  · intro db' r hok
    cases hf : db.addons.find? (fun a => am.id == some a.id) with
    | some w => simp [create_addon, hf] at hok
    | none =>
      simp only [create_addon, hf, Except.ok.injEq, Prod.mk.injEq] at hok
      obtain ⟨hdb, hr⟩ := hok
      subst hdb
      subst hr
      exact ⟨newAddonRow db am, rfl, rfl, rfl⟩
  · intro db' r hok
    cases hf : db.events.find? (fun e => em.id == some e.id) with
    | some w => simp [create_event, hf] at hok
    | none =>
      by_cases hle : em.endDate ≤ em.date
      · simp [create_event, hf, hle] at hok
      · simp only [create_event, hf, if_neg hle, Except.ok.injEq,
          Prod.mk.injEq] at hok
        obtain ⟨hdb, hr⟩ := hok
        subst hdb
        subst hr
        exact ⟨newEventRow db em, rfl, rfl, rfl⟩

/-- Witness for C10: creates carrying client ids 1 and 999 all store and
return the server counters 2, 3 and 4 instead. -/
theorem C10_server_assigned_ids_witness :
    (∃ db' r, create_product exDB dupProductReq = .ok (db', r) ∧
      r.id = some exDB.nextProductId) ∧
    (∃ db' r, create_addon exDB freshAddonReq = .ok (db', r) ∧
      r.id = some exDB.nextAddonId) ∧
    (∃ db' r, create_event exDB freshEventReq = .ok (db', r) ∧
      r.id = some exDB.nextEventId) ∧
    dupProductReq.id = some 1 ∧ freshAddonReq.id = some 999 ∧
    freshEventReq.id = some 999 ∧ exDB.nextProductId = 2 ∧
    exDB.nextAddonId = 3 ∧ exDB.nextEventId = 4 := by
  obtain ⟨p, -, -, hp⟩ :=
    (C10_server_assigned_ids exDB dupProductReq freshAddonReq freshEventReq).1
      _ _ rfl
  obtain ⟨a, -, -, ha⟩ :=
    (C10_server_assigned_ids exDB dupProductReq freshAddonReq
      freshEventReq).2.1 _ _ rfl
  obtain ⟨e, -, -, he⟩ :=
    (C10_server_assigned_ids exDB dupProductReq freshAddonReq
      freshEventReq).2.2 _ _ rfl
  exact ⟨⟨_, _, rfl, hp⟩, ⟨_, _, rfl, ha⟩, ⟨_, _, rfl, he⟩, rfl, rfl, rfl,
    rfl, rfl, rfl⟩

end JustTreats
